import Mathlib

/-!
Verification of the appointment-scheduling assistant.

Shallow embedding of the core logic of the repository:
  * the FAQ retrieval-augmented answerer (faq_rag.py, embeddings.py),
  * the scheduling agent's session handling and tool dispatch
    (scheduling_agent.py),
  * the mock scheduling API: slot generation, booking and cancellation
    (calendly_integration.py).

External collaborators (the chat-completion service, the embedding model,
the vector index, HTTP transport) are modelled as explicit parameters:
their outcomes are inputs to the embedded functions, exactly at the
points where the Python code calls out to them.  Floats are modelled as
rationals; clock times as minutes after midnight; calendar dates as day
numbers counted from a Monday (so weekday = day % 7, with 0 = Monday as
in Python's date.weekday()).
-/

namespace SchedulingSpec

/-! ## Embedding gateway (src/rag/embeddings.py)

The sentence-transformer model is the external collaborator: it is
modelled as a function from the input batch to either a batch of vectors
or an error (a raised exception).  `HFEmbeddings.embed_documents` and
`HFEmbeddings.embed_query` wrap it in a try/except whose handler returns
zero vectors of width 384. -/

/-- Outcome of a call into the underlying embedding model: either the
encoded batch or a raised exception (carried as its message). -/
def EncodeModel : Type := List String → Except String (List (List ℚ))

/-- HFEmbeddings.embed_documents: return the model's encoding of the
batch; on any exception, return one zero vector of width 384 per input
text (the fallback in the except branch). -/
def embed_documents (encode : EncodeModel) (texts : List String) : List (List ℚ) :=
  match encode texts with
  | .ok embs => embs
  | .error _ => texts.map (fun _ => List.replicate 384 (0 : ℚ))

/-- HFEmbeddings.embed_query: encode the singleton batch and take element
0; an exception from the model, or an empty encoding making the indexing
fail, lands in the same except branch returning one zero vector of
width 384. -/
def embed_query (encode : EncodeModel) (text : String) : List ℚ :=
  match encode [text] with
  | .ok (e :: _) => e
  | .ok [] => List.replicate 384 (0 : ℚ)
  | .error _ => List.replicate 384 (0 : ℚ)

/-! ## RAG engine (src/rag/faq_rag.py)

`VectorStore.similarity_search` is a query against the external vector
index; its reply — an ordered list of (document, metadata, distance)
rows — is the input of the embedded functions below. -/

/-- Row returned by VectorStore.similarity_search: the stored document,
its metadata (the question/answer strings placed there at indexing time)
and the cosine distance reported by the index. -/
structure SearchResult where
  document : String
  question : String
  answer : String
  distance : ℚ
  deriving DecidableEq, Repr

/-- Filtering loop of FAQRAG.retrieve_context: for each result compute
similarity = 1 - distance and keep it (with its similarity, the
`result['similarity'] = similarity` annotation) when
similarity >= min_similarity. -/
def filteredResults (results : List SearchResult) (min_similarity : ℚ) :
    List (SearchResult × ℚ) :=
  results.filterMap (fun r =>
    if min_similarity ≤ 1 - r.distance then some (r, 1 - r.distance) else none)

/-- Rendering of one surviving result in FAQRAG.retrieve_context:
a numbered block quoting the metadata's question and answer. -/
def formatSource (idx : Nat) (r : SearchResult) : String :=
  "[Source " ++ toString idx ++ "]\n" ++
    "Q: " ++ r.question ++ "\n" ++
    "A: " ++ r.answer ++ "\n"

/-- FAQRAG.retrieve_context, given the vector store's reply: filter by
the similarity threshold; if nothing passes return the literal
placeholder string, otherwise the numbered source blocks joined by blank
lines (enumerate starts at 1). -/
def retrieve_context (results : List SearchResult) (min_similarity : ℚ) :
    List (SearchResult × ℚ) × String :=
  let filtered := filteredResults results min_similarity
  if filtered.isEmpty then
    ([], "No relevant information found in the knowledge base.")
  else
    (filtered,
      String.intercalate "\n" (filtered.enum.map (fun p => formatSource (p.1 + 1) p.2.1)))

/-- Default min_similarity of retrieve_context (0.3), the value used by
FAQRAG.ask, which calls retrieve_context with defaults only. -/
def DEFAULT_MIN_SIMILARITY : ℚ := 3 / 10

/-- Retrieval-derived part of the reply of FAQRAG.ask: the answer string
itself comes from the completion service and is external. -/
structure AskResult where
  sources : List String
  confidence : ℚ
  context_used : Bool
  deriving Repr

/-- FAQRAG.ask, given the vector store's reply to the question: retrieve
context with default threshold; confidence is the mean of the filtered
results' similarities capped at 1.0 when any result passed, else 0.0;
sources are the surviving results' metadata questions; context_used says
whether any result passed. -/
def ask (searchResults : List SearchResult) : AskResult :=
  let results := (retrieve_context searchResults DEFAULT_MIN_SIMILARITY).1
  { sources := results.map (fun r => r.1.question)
    confidence :=
      if results.isEmpty then 0
      else min ((results.map Prod.snd).sum / (results.length : ℚ)) 1
    context_used := !results.isEmpty }

/-! ## Scheduling agent (src/agent/scheduling_agent.py)

Sessions map an id to an ordered message list.  The completion service
and the two HTTP tools are external: a TurnEnv records their outcomes
for one chat() turn, at each of the points the Python code awaits them.
Exceptions raised by a collaborator are the .exn / .error cases and
propagate to the single try/except backstop in chat(). -/

/-- Tool-call request inside a completion reply: call id, function name
and the JSON-encoded argument string. -/
structure ToolCallReq where
  id : String
  function_name : String
  arguments : String
  deriving DecidableEq, Repr

/-- Message of a session history.  tool_call_id and name are only set on
tool-role messages; tool_calls only on the assistant message recording
the requested calls. -/
structure Message where
  role : String
  content : String
  tool_call_id : String := ""
  name : String := ""
  tool_calls : List ToolCallReq := []
  deriving DecidableEq, Repr

/-- Outcome of one chat.completions.create call: a reply (content plus
possibly empty tool-call list) or a raised exception. -/
inductive CompletionOutcome where
  | reply (content : String) (tool_calls : List ToolCallReq)
  | exn (e : String)
  deriving DecidableEq, Repr

/-- Outcome of awaiting one of the two HTTP tools: the JSON-dumped
payload it returned, or a raised exception (which, in the Python code,
also covers json.loads failing on that call's arguments). -/
inductive ExecOutcome where
  | payload (json : String)
  | exn (e : String)
  deriving DecidableEq, Repr

/-- Environment of one chat() turn: the outcome of the FAQ pre-check
(error = the RAG pipeline raised; ok none = the lexical gate or the
confidence gate declined; ok (some a) = FAQ answer a with
confidence > 0.5), of the first completion call, of each tool by its
argument string, and of the follow-up completion call. -/
structure TurnEnv where
  faq_outcome : Except String (Option String)
  completion1 : CompletionOutcome
  avail_result : String → ExecOutcome
  book_result : String → ExecOutcome
  completion2 : CompletionOutcome

/-- SYSTEM_PROMPT of src/agent/prompts.py (content is never inspected by
the agent logic; kept as an opaque constant with the source's opening
line). -/
def SYSTEM_PROMPT : String :=
  "You are a helpful medical clinic appointment scheduling assistant. Your role is to:\n\n1. Help patients book appointments\n2. Answer questions about the clinic using the FAQ system\n3. Check appointment availability\n4. Collect necessary information for bookings"

/-- SchedulingAgent._get_session_messages: the stored history, created
as the singleton system message when the session is new. -/
def get_session_messages (stored : Option (List Message)) : List Message :=
  match stored with
  | none => [{ role := "system", content := SYSTEM_PROMPT }]
  | some ms => ms

/-- SchedulingAgent._add_message: append, then if the length exceeds 21
keep the first message plus the last 20 ([messages[0]] + messages[-20:]). -/
def add_message (messages : List Message) (m : Message) : List Message :=
  if (messages ++ [m]).length > 21 then
    (messages ++ [m]).take 1 ++ (messages ++ [m]).drop ((messages ++ [m]).length - 20)
  else messages ++ [m]

/-- JSON dump of the error payload _execute_tool builds for an unknown
tool name. -/
def unknown_tool_payload (tool_name : String) : String :=
  "\x7b\"error\": \"Unknown tool: " ++ tool_name ++ "\"\x7d"

/-- SchedulingAgent._execute_tool: dispatch on the tool name; the two
known names call their tools, anything else returns the structured
unknown-tool error payload without raising. -/
def execute_tool (env : TurnEnv) (tool_name : String) (tool_args : String) : ExecOutcome :=
  if tool_name = "check_availability" then env.avail_result tool_args
  else if tool_name = "book_appointment" then env.book_result tool_args
  else .payload (unknown_tool_payload tool_name)

/-- Assistant message recording the raw tool-call requests, appended
before executing them. -/
def assistant_tool_call_message (tool_calls : List ToolCallReq) : Message :=
  { role := "assistant", content := "", tool_calls := tool_calls }

/-- Tool-role message carrying one tool's JSON-dumped result, keyed by
the call id. -/
def tool_result_message (tc : ToolCallReq) (content : String) : Message :=
  { role := "tool", content := content, tool_call_id := tc.id, name := tc.function_name }

/-- Tool-execution loop of _handle_tool_calls: execute each requested
call in order, appending its result as a tool-role message; a raised
exception stops the loop, keeping the messages appended so far (the
Python list was mutated in place). -/
def run_tool_loop (env : TurnEnv) :
    List Message → List ToolCallReq → List Message × Option String
  | messages, [] => (messages, none)
  | messages, tc :: rest =>
    match execute_tool env tc.function_name tc.arguments with
    | .payload p => run_tool_loop env (messages ++ [tool_result_message tc p]) rest
    | .exn e => (messages, some e)

/-- SchedulingAgent._handle_tool_calls: given the stored messages and
the first completion's reply, return the messages after the turn and
either the final answer or the exception that escaped to chat()'s
backstop.  With no tool calls the reply's content is final; otherwise
append the assistant tool-call record, run the tools, then issue the
follow-up completion. -/
def handle_tool_calls (env : TurnEnv) (messages : List Message)
    (content : String) (tool_calls : List ToolCallReq) :
    List Message × Except String String :=
  if tool_calls.isEmpty then (messages, .ok content)
  else
    match run_tool_loop env (messages ++ [assistant_tool_call_message tool_calls]) tool_calls with
    | (messages2, some e) => (messages2, .error e)
    | (messages2, none) =>
      match env.completion2 with
      | .exn e => (messages2, .error e)
      | .reply c _ => (messages2, .ok c)

/-- Apology string produced by chat()'s except backstop. -/
def error_reply (e : String) : String :=
  "I apologize, but I encountered an error: " ++ e

/-- Completion half of SchedulingAgent.chat, entered when the FAQ
pre-check declined, with the user message already appended as s₁: call
the completion service with tools; with no tool calls its text is final,
otherwise _handle_tool_calls produces the final answer; the final answer
is appended through _add_message; a raised exception is converted by the
backstop to the apology string, the history keeping whatever had been
appended before the raise.  Returns (reply text, stored history). -/
def chat_completion_path (env : TurnEnv) (s₁ : List Message) :
    String × Option (List Message) :=
  match env.completion1 with
  | .exn e => (error_reply e, some s₁)
  | .reply c tcs =>
    if tcs.isEmpty then
      (c, some (add_message s₁ { role := "assistant", content := c }))
    else
      match handle_tool_calls env s₁ c tcs with
      | (s₂, .ok final_answer) =>
        (final_answer, some (add_message s₂ { role := "assistant", content := final_answer }))
      | (s₂, .error e) => (error_reply e, some s₂)

/-- SchedulingAgent.chat for one session: FAQ pre-check first (an error
outcome there hits the backstop with the session untouched); on an FAQ
answer, append the raw user message and the answer; otherwise append the
date-prefixed user message and continue in chat_completion_path. -/
def chat (env : TurnEnv) (stored : Option (List Message)) (message : String)
    (today : String) : String × Option (List Message) :=
  match env.faq_outcome with
  | .error e => (error_reply e, stored)
  | .ok (some faq_answer) =>
    (faq_answer,
      some (add_message
        (add_message (get_session_messages stored) { role := "user", content := message })
        { role := "assistant", content := faq_answer }))
  | .ok none =>
    chat_completion_path env
      (add_message (get_session_messages stored)
        { role := "user", content :=
            "[Today\x27s date: " ++ today ++ "]\n\nUser message: " ++ message })

/-- Stored history of one session after a sequence of chat() turns,
each turn carrying its environment, user message and date string. -/
def chat_fold (turns : List (TurnEnv × String × String))
    (stored : Option (List Message)) : Option (List Message) :=
  turns.foldl (fun st t => (chat t.1 st t.2.1 t.2.2).2) stored

/-- SchedulingAgent.clear_session on the sessions map: drop the entry if
present (idempotent; the session_data map is dropped the same way and
carries no information used here). -/
def clear_session (sessions : List (String × List Message)) (session_id : String) :
    List (String × List Message) :=
  sessions.filter (fun p => !(p.1 == session_id))

/-- Reply of SchedulingAgent.get_session_info (session_data omitted:
its value is an opaque dictionary defaulting to empty). -/
structure SessionInfo where
  session_id : String
  message_count : ℤ
  deriving DecidableEq, Repr

/-- SchedulingAgent.get_session_info: message_count is
len(self.sessions.get(session_id, [])) - 1, the -1 meant to exclude the
system message. -/
def get_session_info (sessions : List (String × List Message)) (session_id : String) :
    SessionInfo :=
  { session_id := session_id
    message_count := (((sessions.lookup session_id).getD []).length : ℤ) - 1 }

/-! ## Mock scheduling API (src/api/calendly_integration.py)

Times are minutes after midnight (the source parses "HH:MM" strings);
dates are day numbers from a Monday, so date.weekday() = day % 7.
uuid4 and datetime.now() are external: the fresh booking id, the current
day and the created_at stamp are parameters. -/

/-- AppointmentType enum of src/models/schemas.py. -/
inductive AppointmentType where
  | consultation
  | followup
  | checkup
  | vaccination
  deriving DecidableEq, Repr

/-- APPOINTMENT_DURATIONS in minutes (the dict is total on the enum, so
its .get(_, 30) default never fires). -/
def APPOINTMENT_DURATIONS : AppointmentType → Nat
  | .consultation => 30
  | .followup => 15
  | .checkup => 20
  | .vaccination => 10

/-- Per-doctor schedule entry of DOCTOR_SCHEDULES. -/
structure DoctorSchedule where
  available_days : List Nat
  hours_start : Nat
  hours_end : Nat
  lunch_start : Nat
  lunch_end : Nat
  deriving DecidableEq, Repr

/-- DOCTOR_SCHEDULES: the three built-in doctors (the optional JSON
overlay file is absent in the repository). -/
def DOCTOR_SCHEDULES : List (String × DoctorSchedule) :=
  [("Dr. Smith", ⟨[0, 1, 2, 3, 4], 9 * 60, 17 * 60, 12 * 60, 13 * 60⟩),
   ("Dr. Johnson", ⟨[0, 1, 2, 3, 4], 10 * 60, 18 * 60, 13 * 60, 14 * 60⟩),
   ("Dr. Williams", ⟨[1, 2, 3, 4], 9 * 60, 16 * 60, 12 * 60 + 30, 13 * 60 + 30⟩)]

/-- Stored booking record (created_at is the stamp string passed in by
the caller of book_appointment, standing for datetime.now()). -/
structure BookingRecord where
  booking_id : String
  patient_name : String
  email : String
  phone : String
  date : Nat
  time : Nat
  appointment_type : AppointmentType
  doctor : String
  notes : Option String
  duration_minutes : Nat
  status : String
  created_at : String
  deriving DecidableEq, Repr

/-- is_slot_booked: scan every record of bookings_db for an exact
(date, time, doctor) match; the record's status is not consulted. -/
def is_slot_booked (bookings_db : List (String × BookingRecord))
    (date time : Nat) (doctor : String) : Bool :=
  bookings_db.any (fun p =>
    p.2.date == date && p.2.time == time && p.2.doctor == doctor)

/-- Loop body of generate_time_slots, with explicit fuel standing for
the while loop (the fuel end_time - start_time is enough for every
positive duration, the only case where the Python loop terminates).
An increment starting inside the lunch break is skipped; otherwise the
slot is emitted when its end does not pass end_time. -/
def slot_loop (fuel : Nat) (current end_time duration : Nat)
    (lunch : Option (Nat × Nat)) : List Nat :=
  match fuel with
  | 0 => []
  | fuel + 1 =>
    if current < end_time then
      match lunch with
      | some (lunch_start, lunch_end) =>
        if lunch_start ≤ current ∧ current < lunch_end then
          slot_loop fuel (current + duration) end_time duration lunch
        else if current + duration ≤ end_time then
          current :: slot_loop fuel (current + duration) end_time duration lunch
        else
          slot_loop fuel (current + duration) end_time duration lunch
      | none =>
        if current + duration ≤ end_time then
          current :: slot_loop fuel (current + duration) end_time duration lunch
        else
          slot_loop fuel (current + duration) end_time duration lunch
    else []

/-- generate_time_slots: step from start_time towards end_time in
duration-minute increments. -/
def generate_time_slots (start_time end_time duration : Nat)
    (lunch : Option (Nat × Nat)) : List Nat :=
  slot_loop (end_time - start_time) start_time end_time duration lunch

/-- BookingResponse of src/models/schemas.py. -/
structure BookingResponse where
  success : Bool
  booking_id : Option String := none
  message : String
  appointment_details : Option BookingRecord := none
  deriving DecidableEq, Repr

/-- BookingRequest payload of the /book endpoint. -/
structure BookingRequest where
  patient_name : String
  email : String
  phone : String
  date : Nat
  time : Nat
  appointment_type : AppointmentType
  doctor : String
  notes : Option String
  deriving DecidableEq, Repr

/-- booking_data record built by book_appointment on passing every
validation: the request's fields, the duration looked up from the
appointment type, and status confirmed. -/
def booking_record_of (booking : BookingRequest) (new_booking_id : String)
    (created_at : String) : BookingRecord :=
  { booking_id := new_booking_id
    patient_name := booking.patient_name
    email := booking.email
    phone := booking.phone
    date := booking.date
    time := booking.time
    appointment_type := booking.appointment_type
    doctor := booking.doctor
    notes := booking.notes
    duration_minutes := APPOINTMENT_DURATIONS booking.appointment_type
    status := "confirmed"
    created_at := created_at }

/-- book_appointment: run the validations in source order — date not in
the past, doctor known, day worked, time inside working hours (the slot
duration plays no part in this check), slot not already booked — each
failure returning a structured response and leaving the store untouched;
on success insert the confirmed record under the fresh id.  Returns the
response and the store after the call. -/
def book_appointment (bookings_db : List (String × BookingRecord))
    (booking : BookingRequest) (today : Nat) (new_booking_id : String)
    (created_at : String) : BookingResponse × List (String × BookingRecord) :=
  if booking.date < today then
    ({ success := false, message := "Cannot book appointments in the past" }, bookings_db)
  else
    match DOCTOR_SCHEDULES.lookup booking.doctor with
    | none =>
      ({ success := false,
         message := "Doctor \x27" ++ booking.doctor ++ "\x27 not found" }, bookings_db)
    | some schedule =>
      if ¬ (booking.date % 7 ∈ schedule.available_days) then
        ({ success := false,
           message := booking.doctor ++ " does not work on this day" }, bookings_db)
      else if ¬ (schedule.hours_start ≤ booking.time ∧ booking.time < schedule.hours_end) then
        ({ success := false,
           message := "Selected time is outside " ++ booking.doctor ++
             "\x27s working hours (" ++ toString schedule.hours_start ++ " - " ++
             toString schedule.hours_end ++ ")" }, bookings_db)
      else if is_slot_booked bookings_db booking.date booking.time booking.doctor then
        ({ success := false,
           message := "This time slot is already booked. Please choose another time." },
         bookings_db)
      else
        ({ success := true
           booking_id := some new_booking_id
           message := "Appointment successfully booked with " ++ booking.doctor ++
             " on " ++ toString booking.date ++ " at " ++ toString booking.time
           appointment_details := some (booking_record_of booking new_booking_id created_at) },
         bookings_db ++ [(new_booking_id, booking_record_of booking new_booking_id created_at)])

/-- cancel_booking: 404 (none) for an unknown id; otherwise flip the
record's status to cancelled, leaving it in the store. -/
def cancel_booking (bookings_db : List (String × BookingRecord))
    (booking_id : String) : Option (List (String × BookingRecord)) :=
  if bookings_db.any (fun p => p.1 == booking_id) then
    some (bookings_db.map (fun p =>
      if p.1 == booking_id then (p.1, { p.2 with status := "cancelled" }) else p))
  else none

/-- Availability generation for one doctor inside get_availability: the
generated candidate starts, each paired with its availability flag. -/
def doctor_slots (bookings_db : List (String × BookingRecord))
    (schedule : DoctorSchedule) (doctor : String) (date duration : Nat) :
    List (Nat × Bool) :=
  (generate_time_slots schedule.hours_start schedule.hours_end duration
      (some (schedule.lunch_start, schedule.lunch_end))).map
    (fun t => (t, ! is_slot_booked bookings_db date t doctor))

/-- Concrete booking request for the cancellation and double-booking
scenarios: Dr. Smith, day 7 (a Monday), 09:00, consultation. -/
def sampleBookingRequest : BookingRequest :=
  { patient_name := "Alice Smith"
    email := "alice@example.com"
    phone := "555-0100"
    date := 7
    time := 540
    appointment_type := .consultation
    doctor := "Dr. Smith"
    notes := none }

/-- Concrete booking request whose 30-minute consultation at 16:40 runs
past Dr. Smith's 17:00 closing time. -/
def lateBookingRequest : BookingRequest :=
  { patient_name := "Bob Jones"
    email := "bob@example.com"
    phone := "555-0101"
    date := 7
    time := 1000
    appointment_type := .consultation
    doctor := "Dr. Smith"
    notes := none }

/-! ## Invariants used by the theorems -/

/-- Shape invariant of a stored session history: the head is the system
message and no later message has the system role. -/
def SystemFirst (messages : List Message) : Prop :=
  (∃ m, messages.head? = some m ∧ m.role = "system") ∧
  ∀ m ∈ messages.tail, m.role ≠ "system"

/-- Cap invariant claimed for session histories: at most 1 system
message plus 20 others, system first. -/
def SessionInv (messages : List Message) : Prop :=
  messages.length ≤ 21 ∧ SystemFirst messages

/-- Ten plain turns: the FAQ gate declines and the completion replies
with text and no tool calls, so each turn appends two messages. -/
def plainTurnEnv : TurnEnv :=
  { faq_outcome := .ok none
    completion1 := .reply "Hello! How can I help you today?" []
    avail_result := fun _ => .payload "\x7b\"slots\": []\x7d"
    book_result := fun _ => .payload "\x7b\"success\": true\x7d"
    completion2 := .reply "done" [] }

/-- One turn whose completion requests five availability checks and
whose follow-up completion raises, so chat() takes the backstop path
after the tool messages were appended without trimming. -/
def toolFailTurnEnv : TurnEnv :=
  { faq_outcome := .ok none
    completion1 := .reply ""
      [⟨"call_1", "check_availability", "\x7b\x7d"⟩,
       ⟨"call_2", "check_availability", "\x7b\x7d"⟩,
       ⟨"call_3", "check_availability", "\x7b\x7d"⟩,
       ⟨"call_4", "check_availability", "\x7b\x7d"⟩,
       ⟨"call_5", "check_availability", "\x7b\x7d"⟩]
    avail_result := fun _ => .payload "\x7b\"slots\": []\x7d"
    book_result := fun _ => .payload "\x7b\"success\": true\x7d"
    completion2 := .exn "rate limit" }

/-- One turn whose completion requests a call to a tool name the agent
does not know. -/
def unknownToolTurnEnv : TurnEnv :=
  { faq_outcome := .ok none
    completion1 := .reply "" [⟨"call_9", "get_weather", "\x7b\x7d"⟩]
    avail_result := fun _ => .payload "\x7b\"slots\": []\x7d"
    book_result := fun _ => .payload "\x7b\"success\": true\x7d"
    completion2 := .reply "Sorry, I cannot help with that." [] }

/-! ## Theorems: retrieval (C1, C2) -/

theorem retrieve_context_fst (results : List SearchResult) (t : ℚ) :
    (retrieve_context results t).1 = filteredResults results t := by
  unfold retrieve_context
  by_cases h : (filteredResults results t).isEmpty
  · simp only [h, if_true]
    exact (List.isEmpty_iff.mp h).symm
  · simp [h]

theorem mem_filteredResults {results : List SearchResult} {t : ℚ}
    {p : SearchResult × ℚ} (hp : p ∈ filteredResults results t) :
    p.2 = 1 - p.1.distance ∧ t ≤ p.2 := by
  unfold filteredResults at hp
  rcases List.mem_filterMap.mp hp with ⟨a, _, ha⟩
  by_cases h : t ≤ 1 - a.distance
  · simp only [h, if_true, Option.some.injEq] at ha
    subst ha
    exact ⟨rfl, h⟩
  · simp [h] at ha

theorem filteredResults_length_antitone (results : List SearchResult)
    {t₁ t₂ : ℚ} (h : t₁ ≤ t₂) :
    (filteredResults results t₂).length ≤ (filteredResults results t₁).length := by
  induction results with
  | nil => simp [filteredResults]
  | cons a l ih =>
    unfold filteredResults at ih ⊢
    simp only [List.filterMap_cons]
    by_cases h₂ : t₂ ≤ 1 - a.distance
    · have h₁ : t₁ ≤ 1 - a.distance := le_trans h h₂
      simp only [h₁, h₂, if_true, List.length_cons]
      exact Nat.succ_le_succ ih
    · by_cases h₁ : t₁ ≤ 1 - a.distance
      · simp only [h₁, h₂, if_true, if_false, List.length_cons]
        exact Nat.le_succ_of_le ih
      · simp only [h₁, h₂, if_false]
        exact ih

/-- C1: retrieve_context returns only results whose derived similarity
(1 - distance) meets the threshold, and for a fixed underlying search
result the number of returned results is antitone in the threshold. -/
theorem retrieve_context_threshold_antitone (results : List SearchResult)
    (t₁ t₂ : ℚ) (h : t₁ ≤ t₂) :
    (∀ p ∈ (retrieve_context results t₂).1, p.2 = 1 - p.1.distance ∧ t₂ ≤ p.2) ∧
    (retrieve_context results t₂).1.length ≤ (retrieve_context results t₁).1.length := by
  rw [retrieve_context_fst, retrieve_context_fst]
  exact ⟨fun p hp => mem_filteredResults hp, filteredResults_length_antitone results h⟩

/-- Witness for C1 at a concrete search reply and thresholds 1/4 ≤ 1/2. -/
theorem retrieve_context_threshold_antitone_witness :
    (∀ p ∈ (retrieve_context [⟨"d", "q", "a", 2/5⟩, ⟨"e", "q2", "a2", 7/10⟩] (1/2)).1,
        p.2 = 1 - p.1.distance ∧ (1 : ℚ)/2 ≤ p.2) ∧
    (retrieve_context [⟨"d", "q", "a", 2/5⟩, ⟨"e", "q2", "a2", 7/10⟩] (1/2)).1.length ≤
      (retrieve_context [⟨"d", "q", "a", 2/5⟩, ⟨"e", "q2", "a2", 7/10⟩] (1/4)).1.length :=
  retrieve_context_threshold_antitone _ (1/4) (1/2) (by norm_num)

/-- C2: the confidence reported by ask lies in [0,1]; when at least one
retrieved result passed the threshold it equals the mean similarity of
exactly the filtered results capped at 1.0; and it equals 0 exactly when
no retrieved result passed the threshold. -/
theorem ask_confidence_spec (searchResults : List SearchResult) :
    (0 ≤ (ask searchResults).confidence ∧ (ask searchResults).confidence ≤ 1) ∧
    ((retrieve_context searchResults DEFAULT_MIN_SIMILARITY).1 ≠ [] →
      (ask searchResults).confidence =
        min (((retrieve_context searchResults DEFAULT_MIN_SIMILARITY).1.map Prod.snd).sum /
          ((retrieve_context searchResults DEFAULT_MIN_SIMILARITY).1.length : ℚ)) 1) ∧
    ((ask searchResults).confidence = 0 ↔
      (retrieve_context searchResults DEFAULT_MIN_SIMILARITY).1 = []) := by
  have hconf : (ask searchResults).confidence =
      if ((retrieve_context searchResults DEFAULT_MIN_SIMILARITY).1).isEmpty then 0
      else min (((retrieve_context searchResults DEFAULT_MIN_SIMILARITY).1.map Prod.snd).sum /
        ((retrieve_context searchResults DEFAULT_MIN_SIMILARITY).1.length : ℚ)) 1 := rfl
  by_cases hl : (retrieve_context searchResults DEFAULT_MIN_SIMILARITY).1 = []
  · rw [hl] at hconf
    simp only [List.isEmpty_nil, if_true] at hconf
    refine ⟨⟨le_of_eq hconf.symm, ?_⟩, fun h => absurd hl h, ?_⟩
    · rw [hconf]; norm_num
    · rw [hconf, hl]; simp
  · rw [if_neg (fun h => hl (List.isEmpty_iff.mp h))] at hconf
    have hmem : ∀ x ∈ (retrieve_context searchResults DEFAULT_MIN_SIMILARITY).1.map Prod.snd,
        DEFAULT_MIN_SIMILARITY ≤ x := by
      intro x hx
      rcases List.mem_map.mp hx with ⟨p, hp, rfl⟩
      rw [retrieve_context_fst] at hp
      exact (mem_filteredResults hp).2
    have hsum := List.card_nsmul_le_sum _ DEFAULT_MIN_SIMILARITY hmem
    rw [List.length_map, nsmul_eq_mul] at hsum
    have hlpos : (0 : ℚ) < (retrieve_context searchResults DEFAULT_MIN_SIMILARITY).1.length := by
      exact_mod_cast List.length_pos.mpr hl
    have hmean : DEFAULT_MIN_SIMILARITY ≤
        ((retrieve_context searchResults DEFAULT_MIN_SIMILARITY).1.map Prod.snd).sum /
          ((retrieve_context searchResults DEFAULT_MIN_SIMILARITY).1.length : ℚ) :=
      (le_div_iff₀ hlpos).mpr (by linarith)
    have hmin : DEFAULT_MIN_SIMILARITY ≤ (ask searchResults).confidence := by
      rw [hconf]
      exact le_min hmean (by norm_num [DEFAULT_MIN_SIMILARITY])
    have hpos : (0 : ℚ) < (ask searchResults).confidence :=
      lt_of_lt_of_le (by norm_num [DEFAULT_MIN_SIMILARITY]) hmin
    refine ⟨⟨le_of_lt hpos, ?_⟩, fun _ => hconf, ?_⟩
    · rw [hconf]; exact min_le_right _ _
    · exact ⟨fun h => absurd h (ne_of_gt hpos), fun h => absurd h hl⟩

/-! ## Theorems: embedding fallback (C9) -/

/-- C9: when the embedding model raises, embed_documents returns one
zero vector of width 384 per input text, and embed_query returns a
single zero vector of width 384. -/
theorem embed_fallback_zero_vectors (encode : EncodeModel)
    (texts : List String) (text : String) (e₁ e₂ : String)
    (hdocs : encode texts = .error e₁) (hq : encode [text] = .error e₂) :
    (embed_documents encode texts).length = texts.length ∧
    (∀ v ∈ embed_documents encode texts, v = List.replicate 384 (0 : ℚ)) ∧
    embed_query encode text = List.replicate 384 (0 : ℚ) := by
  unfold embed_documents embed_query
  rw [hdocs, hq]
  refine ⟨List.length_map _ _, ?_, rfl⟩
  intro v hv
  rcases List.mem_map.mp hv with ⟨_, _, rfl⟩
  rfl

/-! ## Theorems: session history (C3, C4) -/

theorem add_message_length_le (messages : List Message) (m : Message) :
    (add_message messages m).length ≤ 21 := by
  unfold add_message
  split <;> rename_i hlen <;>
    simp only [List.length_append, List.length_take, List.length_drop,
      List.length_singleton] at hlen ⊢ <;>
    omega

theorem system_first_append {messages : List Message} {m : Message}
    (h : SystemFirst messages) (hm : m.role ≠ "system") :
    SystemFirst (messages ++ [m]) := by
  obtain ⟨⟨hd, hhd, hrole⟩, htail⟩ := h
  cases messages with
  | nil => simp at hhd
  | cons a tl =>
    rw [List.head?_cons, Option.some.injEq] at hhd
    refine ⟨⟨a, by simp, by rw [hhd]; exact hrole⟩, ?_⟩
    intro m' hm'
    simp only [List.cons_append, List.tail_cons, List.mem_append,
      List.mem_singleton] at hm'
    rcases hm' with hm' | rfl
    · exact htail m' (by simpa using hm')
    · exact hm

theorem system_first_drop {messages : List Message} (k : Nat) (hk : 1 ≤ k)
    (h : SystemFirst messages) :
    ∀ m ∈ messages.drop k, m.role ≠ "system" := by
  obtain ⟨⟨hd, hhd, _⟩, htail⟩ := h
  cases messages with
  | nil => simp
  | cons a tl =>
    intro m hm
    obtain ⟨k', rfl⟩ : ∃ k', k = k' + 1 := ⟨k - 1, by omega⟩
    rw [List.drop_succ_cons] at hm
    exact htail m (List.mem_of_mem_drop hm)

theorem add_message_system_first {messages : List Message} {m : Message}
    (h : SystemFirst messages) (hm : m.role ≠ "system") :
    SystemFirst (add_message messages m) := by
  have happ : SystemFirst (messages ++ [m]) := system_first_append h hm
  unfold add_message
  by_cases hlen : (messages ++ [m]).length > 21
  · simp only [hlen, if_true]
    obtain ⟨⟨hd, hhd, hrole⟩, _⟩ := id happ
    cases happend : messages ++ [m] with
    | nil => rw [happend] at hhd; simp at hhd
    | cons a tl =>
      rw [happend] at hhd
      rw [List.head?_cons, Option.some.injEq] at hhd
      have hk : 1 ≤ (a :: tl).length - 20 := by
        rw [happend] at hlen
        simp only [List.length_cons] at hlen ⊢
        omega
      refine ⟨⟨a, ?_, by rw [hhd]; exact hrole⟩, ?_⟩
      · simp
      · intro m' hm'
        simp only [List.take_succ_cons, List.take_zero, List.cons_append,
          List.nil_append, List.tail_cons] at hm'
        exact system_first_drop _ hk (happend ▸ happ) m' hm'
  · simp only [hlen, if_false]
    exact happ

theorem get_session_messages_system_first (stored : Option (List Message))
    (h : ∀ ms, stored = some ms → SystemFirst ms) :
    SystemFirst (get_session_messages stored) := by
  cases stored with
  | none =>
    refine ⟨⟨{ role := "system", content := SYSTEM_PROMPT }, rfl, rfl⟩, ?_⟩
    intro m hm
    simp [get_session_messages] at hm
  | some ms => exact h ms rfl

theorem execute_tool_payload (env : TurnEnv) (tool_name tool_args : String)
    (havail : ∀ a e, env.avail_result a ≠ .exn e)
    (hbook : ∀ a e, env.book_result a ≠ .exn e) :
    ∃ p, execute_tool env tool_name tool_args = .payload p := by
  unfold execute_tool
  split_ifs
  · cases h : env.avail_result tool_args with
    | payload p => exact ⟨p, rfl⟩
    | exn e => exact absurd h (havail _ _)
  · cases h : env.book_result tool_args with
    | payload p => exact ⟨p, rfl⟩
    | exn e => exact absurd h (hbook _ _)
  · exact ⟨_, rfl⟩

theorem run_tool_loop_ok (env : TurnEnv)
    (havail : ∀ a e, env.avail_result a ≠ .exn e)
    (hbook : ∀ a e, env.book_result a ≠ .exn e) :
    ∀ (tcs : List ToolCallReq) (messages : List Message),
      (run_tool_loop env messages tcs).2 = none ∧
      (SystemFirst messages → SystemFirst (run_tool_loop env messages tcs).1) := by
  intro tcs
  induction tcs with
  | nil => intro messages; exact ⟨rfl, fun h => h⟩
  | cons tc rest ih =>
    intro messages
    obtain ⟨p, hp⟩ := execute_tool_payload env tc.function_name tc.arguments havail hbook
    unfold run_tool_loop
    rw [hp]
    refine ⟨(ih _).1, fun h => (ih _).2 ?_⟩
    exact system_first_append h (by simp [tool_result_message])

theorem handle_tool_calls_ok (env : TurnEnv) (messages : List Message)
    (content : String) (tcs : List ToolCallReq)
    (havail : ∀ a e, env.avail_result a ≠ .exn e)
    (hbook : ∀ a e, env.book_result a ≠ .exn e)
    (hcomp2 : ∀ e, env.completion2 ≠ .exn e) :
    (∃ final, (handle_tool_calls env messages content tcs).2 = .ok final) ∧
    (SystemFirst messages → SystemFirst (handle_tool_calls env messages content tcs).1) := by
  unfold handle_tool_calls
  by_cases he : tcs.isEmpty
  · simp only [he, if_true]
    exact ⟨⟨content, rfl⟩, fun h => h⟩
  · simp only [he, if_false]
    have hrun := run_tool_loop_ok env havail hbook tcs
      (messages ++ [assistant_tool_call_message tcs])
    rcases hloop : run_tool_loop env (messages ++ [assistant_tool_call_message tcs]) tcs
      with ⟨m₂, oe⟩
    rw [hloop] at hrun
    cases oe with
    | some e => exact absurd hrun.1 (by simp)
    | none =>
      cases hc2 : env.completion2 with
      | exn e => exact absurd hc2 (hcomp2 e)
      | reply c tcs₂ =>
        refine ⟨⟨c, rfl⟩, fun h => ?_⟩
        exact hrun.2 (system_first_append h (by simp [assistant_tool_call_message]))

theorem chat_completion_path_inv (env : TurnEnv) (s₁ : List Message)
    (hs₁ : SessionInv s₁)
    (havail : ∀ a e, env.avail_result a ≠ .exn e)
    (hbook : ∀ a e, env.book_result a ≠ .exn e)
    (hcomp2 : ∀ e, env.completion2 ≠ .exn e) :
    ∀ ms, (chat_completion_path env s₁).2 = some ms → SessionInv ms := by
  intro ms hms
  unfold chat_completion_path at hms
  split at hms
  · simp only [Option.some.injEq] at hms
    exact hms ▸ hs₁
  · rename_i c tcs hc1
    split at hms
    · simp only [Option.some.injEq] at hms
      exact hms ▸ ⟨add_message_length_le _ _,
        add_message_system_first hs₁.2 (by intro hx; simp at hx)⟩
    · rename_i he
      have hok := handle_tool_calls_ok env s₁ c tcs havail hbook hcomp2
      split at hms
      · rename_i s₂ final heq
        simp only [Option.some.injEq] at hms
        have hsf₂ : SystemFirst s₂ := by
          have hpres := hok.2 hs₁.2
          rw [heq] at hpres
          exact hpres
        exact hms ▸ ⟨add_message_length_le _ _,
          add_message_system_first hsf₂ (by intro hx; simp at hx)⟩
      · rename_i s₂ e heq
        obtain ⟨final, hfin⟩ := hok.1
        rw [heq] at hfin
        simp at hfin

theorem chat_session_inv_step (env : TurnEnv) (stored : Option (List Message))
    (message today : String)
    (hstored : ∀ ms, stored = some ms → SessionInv ms)
    (havail : ∀ a e, env.avail_result a ≠ .exn e)
    (hbook : ∀ a e, env.book_result a ≠ .exn e)
    (hcomp2 : ∀ e, env.completion2 ≠ .exn e) :
    ∀ ms, (chat env stored message today).2 = some ms → SessionInv ms := by
  have hsf : SystemFirst (get_session_messages stored) :=
    get_session_messages_system_first stored (fun ms h => (hstored ms h).2)
  intro ms hms
  unfold chat at hms
  split at hms
  · exact hstored ms hms
  · simp only [Option.some.injEq] at hms
    exact hms ▸ ⟨add_message_length_le _ _,
      add_message_system_first (add_message_system_first hsf (by intro hx; simp at hx))
        (by intro hx; simp at hx)⟩
  · exact chat_completion_path_inv env _
      ⟨add_message_length_le _ _, add_message_system_first hsf (by intro hx; simp at hx)⟩
      havail hbook hcomp2 ms hms

theorem chat_fold_session_inv_aux (turns : List (TurnEnv × String × String)) :
    ∀ (stored : Option (List Message)),
      (∀ t ∈ turns,
        (∀ a e, t.1.avail_result a ≠ .exn e) ∧
        (∀ a e, t.1.book_result a ≠ .exn e) ∧
        (∀ e, t.1.completion2 ≠ .exn e)) →
      (∀ ms, stored = some ms → SessionInv ms) →
      ∀ ms, chat_fold turns stored = some ms → SessionInv ms := by
  induction turns with
  | nil =>
    intro stored _ hst ms hms
    exact hst ms hms
  | cons t rest ih =>
    intro stored h hst ms hms
    have ht := h t (by simp)
    exact ih _ (fun t' ht' => h t' (List.mem_cons_of_mem _ ht'))
      (chat_session_inv_step t.1 stored t.2.1 t.2.2 hst ht.1 ht.2.1 ht.2.2) ms hms

/-- C3 (amended): across any sequence of chat() calls on a session, as
long as no tool call and no follow-up completion raises mid-turn, the
stored history after each call holds at most 1 system message plus 20
others, system message first.  (A turn aborted inside tool handling can
leave the history over the cap; see the counterexample.) -/
theorem chat_fold_session_cap (turns : List (TurnEnv × String × String))
    (h : ∀ t ∈ turns,
      (∀ a e, t.1.avail_result a ≠ .exn e) ∧
      (∀ a e, t.1.book_result a ≠ .exn e) ∧
      (∀ e, t.1.completion2 ≠ .exn e)) :
    ∀ ms, chat_fold turns none = some ms → SessionInv ms :=
  chat_fold_session_inv_aux turns none h (fun ms hms => by simp at hms)

/-- Witness for C3 (amended) on two concrete plain turns. -/
theorem chat_fold_session_cap_witness :
    (∀ t ∈ [(plainTurnEnv, "hi", "2026-10-12"), (plainTurnEnv, "thanks", "2026-10-12")],
      (∀ a e, t.1.avail_result a ≠ .exn e) ∧
      (∀ a e, t.1.book_result a ≠ .exn e) ∧
      (∀ e, t.1.completion2 ≠ .exn e)) ∧
    (∀ ms, chat_fold [(plainTurnEnv, "hi", "2026-10-12"),
        (plainTurnEnv, "thanks", "2026-10-12")] none = some ms → SessionInv ms) := by
  have h : ∀ t ∈ [(plainTurnEnv, "hi", "2026-10-12"), (plainTurnEnv, "thanks", "2026-10-12")],
      (∀ a e, (t.1).avail_result a ≠ .exn e) ∧
      (∀ a e, (t.1).book_result a ≠ .exn e) ∧
      (∀ e, (t.1).completion2 ≠ .exn e) := by
    intro t ht
    simp only [List.mem_cons, List.mem_singleton] at ht
    rcases ht with rfl | rfl | h
    · exact ⟨fun a e => by simp [plainTurnEnv], fun a e => by simp [plainTurnEnv],
        fun e => by simp [plainTurnEnv]⟩
    · exact ⟨fun a e => by simp [plainTurnEnv], fun a e => by simp [plainTurnEnv],
        fun e => by simp [plainTurnEnv]⟩
    · cases h
  exact ⟨h, chat_fold_session_cap _ h⟩

/-- C3 counterexample: ten plain turns fill the history to 21 messages;
an eleventh turn whose completion requests five tool calls and whose
follow-up completion raises ends with 27 stored messages, over the
claimed 1 + 20 cap. -/
theorem chat_history_cap_counterexample :
    (chat_fold (List.replicate 10 (plainTurnEnv, "hi", "2026-10-12") ++
        [(toolFailTurnEnv, "book me in", "2026-10-12")]) none).map List.length =
      some 27 ∧ ¬ (27 ≤ 1 + 20) :=
  ⟨rfl, by decide⟩

theorem lookup_clear_session (sessions : List (String × List Message))
    (session_id : String) :
    (clear_session sessions session_id).lookup session_id = none := by
  induction sessions with
  | nil => rfl
  | cons p rest ih =>
    obtain ⟨k, v⟩ := p
    by_cases h : k = session_id
    · simpa [clear_session, List.filter_cons, h] using ih
    · have hb : (k == session_id) = false := beq_eq_false_iff_ne.mpr h
      have hb' : (session_id == k) = false := beq_eq_false_iff_ne.mpr (Ne.symm h)
      simpa [clear_session, List.filter_cons, hb, List.lookup, hb'] using ih

/-- C4: get_session_info reports message_count = -1, not 0, both right
after clear_session on the same id and on a never-seen session (the
source computes len(sessions.get(id, [])) - 1, and the repository's own
test_session_management asserts 0). -/
theorem get_session_info_reports_neg_one (sessions : List (String × List Message))
    (session_id : String) :
    ((get_session_info (clear_session sessions session_id) session_id).message_count = -1 ∧
      (get_session_info (clear_session sessions session_id) session_id).message_count ≠ 0) ∧
    ((get_session_info [] session_id).message_count = -1 ∧
      (get_session_info [] session_id).message_count ≠ 0) := by
  have h : (get_session_info (clear_session sessions session_id) session_id).message_count
      = -1 := by
    unfold get_session_info
    rw [lookup_clear_session]
    rfl
  have h₂ : (get_session_info [] session_id).message_count = -1 := rfl
  exact ⟨⟨h, by rw [h]; decide⟩, ⟨h₂, by rw [h₂]; decide⟩⟩

/-- Witness for C9: a model that always raises, on a two-text batch and
a single query. -/
theorem embed_fallback_zero_vectors_witness :
    ((fun _ => Except.error "model down" : EncodeModel) ["a", "b"] =
        Except.error "model down") ∧
    (embed_documents (fun _ => Except.error "model down") ["a", "b"]).length =
        (["a", "b"] : List String).length ∧
    (∀ v ∈ embed_documents (fun _ => Except.error "model down") ["a", "b"],
        v = List.replicate 384 (0 : ℚ)) ∧
    embed_query (fun _ => Except.error "model down") "q" = List.replicate 384 (0 : ℚ) :=
  ⟨rfl, embed_fallback_zero_vectors (fun _ => Except.error "model down")
    ["a", "b"] "q" "model down" "model down" rfl rfl⟩

/-! ## Theorems: slot generation (C6) -/

theorem slot_loop_bounds (lunch_start lunch_end end_time duration : Nat) :
    ∀ (fuel current : Nat),
      ∀ s ∈ slot_loop fuel current end_time duration (some (lunch_start, lunch_end)),
        ¬ (lunch_start ≤ s ∧ s < lunch_end) ∧ s + duration ≤ end_time := by
  intro fuel
  induction fuel with
  | zero => intro current s hs; simp [slot_loop] at hs
  | succ fuel ih =>
    intro current s hs
    unfold slot_loop at hs
    dsimp only at hs
    split at hs
    · split at hs
      · exact ih _ s hs
      · split at hs
        · rename_i hnl hend
          rcases List.mem_cons.mp hs with rfl | hs'
          · exact ⟨hnl, hend⟩
          · exact ih _ s hs'
        · exact ih _ s hs
    · simp at hs

/-- C6 (amended): for every schedule and positive duration,
generate_time_slots emits no slot starting inside the lunch interval and
no slot whose end exceeds the closing time.  (A slot starting before
lunch_start may still run into the lunch interval; see the
counterexample.) -/
theorem generate_time_slots_bounds (start_time end_time duration lunch_start lunch_end : Nat)
    (hdur : 0 < duration) :
    ∀ s ∈ generate_time_slots start_time end_time duration (some (lunch_start, lunch_end)),
      ¬ (lunch_start ≤ s ∧ s < lunch_end) ∧ s + duration ≤ end_time :=
  fun s hs => slot_loop_bounds lunch_start lunch_end end_time duration _ _ s hs

/-- Witness for C6 (amended) on Dr. Smith's schedule with a 30-minute
consultation. -/
theorem generate_time_slots_bounds_witness :
    0 < 30 ∧
    ∀ s ∈ generate_time_slots 540 1020 30 (some (720, 780)),
      ¬ (720 ≤ s ∧ s < 780) ∧ s + 30 ≤ 1020 :=
  ⟨by decide, generate_time_slots_bounds 540 1020 30 720 780 (by decide)⟩

/-- C6 counterexample: with Dr. Williams' hours (09:00-16:00), lunch
12:30-13:30 and a 20-minute check-up, the generated slot 12:20 (minute
740) runs to 12:40 and so overlaps the lunch interval. -/
theorem generate_time_slots_lunch_overlap_cex :
    740 ∈ generate_time_slots 540 960 20 (some (750, 810)) ∧
    740 < 810 ∧ 750 < 740 + 20 := by
  exact ⟨by decide, by decide, by decide⟩

/-! ## Theorems: booking (C5, C7, C10) -/

/-- C5: the claim fails on the code — is_slot_booked never consults the
status that cancel_booking flips.  Booking Dr. Smith on day 7 at 09:00
and then cancelling leaves a store whose every record has status
cancelled, yet is_slot_booked still reports the slot as booked, and the
generated availability for that day still shows (540, available=false). -/
theorem cancel_booking_leaves_slot_blocked :
    (book_appointment [] sampleBookingRequest 7 "b1" "t0").1.success = true ∧
    (cancel_booking (book_appointment [] sampleBookingRequest 7 "b1" "t0").2 "b1").isSome
      = true ∧
    (((cancel_booking (book_appointment [] sampleBookingRequest 7 "b1" "t0").2 "b1").getD
        []).all (fun p => p.2.status == "cancelled")) = true ∧
    is_slot_booked
      ((cancel_booking (book_appointment [] sampleBookingRequest 7 "b1" "t0").2 "b1").getD [])
      7 540 "Dr. Smith" = true ∧
    (540, false) ∈ doctor_slots
      ((cancel_booking (book_appointment [] sampleBookingRequest 7 "b1" "t0").2 "b1").getD [])
      ⟨[0, 1, 2, 3, 4], 540, 1020, 720, 780⟩ "Dr. Smith" 7 30 := by
  refine ⟨rfl, rfl, rfl, rfl, by decide⟩

/-- C7: with a valid request on a free slot, the first booking succeeds
and stores a confirmed record; rebooking the same (date, time, doctor)
fails with the already-booked message and leaves the store exactly as
the first booking left it. -/
theorem book_twice_second_fails (db : List (String × BookingRecord))
    (booking : BookingRequest) (today : Nat) (id₁ id₂ c₁ c₂ : String)
    (schedule : DoctorSchedule)
    (hpast : ¬ booking.date < today)
    (hdoc : DOCTOR_SCHEDULES.lookup booking.doctor = some schedule)
    (hday : booking.date % 7 ∈ schedule.available_days)
    (hhours : schedule.hours_start ≤ booking.time ∧ booking.time < schedule.hours_end)
    (hfree : is_slot_booked db booking.date booking.time booking.doctor = false) :
    (book_appointment db booking today id₁ c₁).1.success = true ∧
    ((id₁, booking_record_of booking id₁ c₁) ∈ (book_appointment db booking today id₁ c₁).2 ∧
      (booking_record_of booking id₁ c₁).status = "confirmed") ∧
    (book_appointment (book_appointment db booking today id₁ c₁).2 booking today id₂ c₂).1.success
      = false ∧
    (book_appointment (book_appointment db booking today id₁ c₁).2 booking today id₂ c₂).1.message
      = "This time slot is already booked. Please choose another time." ∧
    (book_appointment (book_appointment db booking today id₁ c₁).2 booking today id₂ c₂).2
      = (book_appointment db booking today id₁ c₁).2 := by
  have hb1 : book_appointment db booking today id₁ c₁ =
      ({ success := true
         booking_id := some id₁
         message := "Appointment successfully booked with " ++ booking.doctor ++
           " on " ++ toString booking.date ++ " at " ++ toString booking.time
         appointment_details := some (booking_record_of booking id₁ c₁) },
       db ++ [(id₁, booking_record_of booking id₁ c₁)]) := by
    unfold book_appointment
    rw [if_neg hpast, hdoc]
    dsimp only
    rw [if_neg (not_not_intro hday), if_neg (not_not_intro hhours),
      if_neg (by simp [hfree])]
  have hbooked : is_slot_booked (db ++ [(id₁, booking_record_of booking id₁ c₁)])
      booking.date booking.time booking.doctor = true := by
    simp [is_slot_booked, List.any_append, booking_record_of]
  have hb2 : book_appointment (db ++ [(id₁, booking_record_of booking id₁ c₁)])
      booking today id₂ c₂ =
      ({ success := false,
         message := "This time slot is already booked. Please choose another time." },
       db ++ [(id₁, booking_record_of booking id₁ c₁)]) := by
    unfold book_appointment
    rw [if_neg hpast, hdoc]
    dsimp only
    rw [if_neg (not_not_intro hday), if_neg (not_not_intro hhours),
      if_pos (by simp [hbooked])]
  rw [hb1, hb2]
  refine ⟨rfl, ⟨by simp, rfl⟩, rfl, rfl, rfl⟩

/-- Witness for C7: Dr. Smith, day 7 (a Monday), 09:00, empty store. -/
theorem book_twice_second_fails_witness :
    ((¬ sampleBookingRequest.date < 7) ∧
      DOCTOR_SCHEDULES.lookup sampleBookingRequest.doctor =
        some ⟨[0, 1, 2, 3, 4], 540, 1020, 720, 780⟩ ∧
      sampleBookingRequest.date % 7 ∈ [0, 1, 2, 3, 4] ∧
      is_slot_booked [] sampleBookingRequest.date sampleBookingRequest.time
        sampleBookingRequest.doctor = false) ∧
    ((book_appointment [] sampleBookingRequest 7 "b1" "t1").1.success = true ∧
      ((("b1", booking_record_of sampleBookingRequest "b1" "t1") ∈
          (book_appointment [] sampleBookingRequest 7 "b1" "t1").2) ∧
        (booking_record_of sampleBookingRequest "b1" "t1").status = "confirmed") ∧
      (book_appointment (book_appointment [] sampleBookingRequest 7 "b1" "t1").2
          sampleBookingRequest 7 "b2" "t2").1.success = false ∧
      (book_appointment (book_appointment [] sampleBookingRequest 7 "b1" "t1").2
          sampleBookingRequest 7 "b2" "t2").1.message
        = "This time slot is already booked. Please choose another time." ∧
      (book_appointment (book_appointment [] sampleBookingRequest 7 "b1" "t1").2
          sampleBookingRequest 7 "b2" "t2").2
        = (book_appointment [] sampleBookingRequest 7 "b1" "t1").2) :=
  ⟨⟨by decide, by decide, by decide, by decide⟩,
    book_twice_second_fails [] sampleBookingRequest 7 "b1" "b2" "t1" "t2"
      ⟨[0, 1, 2, 3, 4], 540, 1020, 720, 780⟩
      (by decide) (by decide) (by decide) (by decide) (by decide)⟩

/-- C10: the working-hours validation of book_appointment only checks
opening ≤ t < closing; a request whose end t + duration exceeds the
closing time still succeeds and stores a confirmed record, although
generate_time_slots never offers that start time. -/
theorem book_accepts_slot_past_closing (db : List (String × BookingRecord))
    (booking : BookingRequest) (today : Nat) (id c : String)
    (schedule : DoctorSchedule)
    (hpast : ¬ booking.date < today)
    (hdoc : DOCTOR_SCHEDULES.lookup booking.doctor = some schedule)
    (hday : booking.date % 7 ∈ schedule.available_days)
    (hhours : schedule.hours_start ≤ booking.time ∧ booking.time < schedule.hours_end)
    (hfree : is_slot_booked db booking.date booking.time booking.doctor = false)
    (hover : schedule.hours_end <
      booking.time + APPOINTMENT_DURATIONS booking.appointment_type) :
    (book_appointment db booking today id c).1.success = true ∧
    ((id, booking_record_of booking id c) ∈ (book_appointment db booking today id c).2 ∧
      (booking_record_of booking id c).status = "confirmed") ∧
    booking.time ∉ generate_time_slots schedule.hours_start schedule.hours_end
      (APPOINTMENT_DURATIONS booking.appointment_type)
      (some (schedule.lunch_start, schedule.lunch_end)) := by
  have hb1 : book_appointment db booking today id c =
      ({ success := true
         booking_id := some id
         message := "Appointment successfully booked with " ++ booking.doctor ++
           " on " ++ toString booking.date ++ " at " ++ toString booking.time
         appointment_details := some (booking_record_of booking id c) },
       db ++ [(id, booking_record_of booking id c)]) := by
    unfold book_appointment
    rw [if_neg hpast, hdoc]
    dsimp only
    rw [if_neg (not_not_intro hday), if_neg (not_not_intro hhours),
      if_neg (by simp [hfree])]
  rw [hb1]
  refine ⟨rfl, ⟨by simp, rfl⟩, ?_⟩
  intro hmem
  have hb := (slot_loop_bounds schedule.lunch_start schedule.lunch_end schedule.hours_end
    (APPOINTMENT_DURATIONS booking.appointment_type) _ _ booking.time hmem).2
  omega

/-- Witness for C10: Dr. Smith, day 7, 16:40 consultation (ends 17:10,
ten minutes past closing), empty store. -/
theorem book_accepts_slot_past_closing_witness :
    ((¬ lateBookingRequest.date < 7) ∧
      lateBookingRequest.time + APPOINTMENT_DURATIONS lateBookingRequest.appointment_type
        = 1030 ∧ 1020 < 1030) ∧
    ((book_appointment [] lateBookingRequest 7 "b9" "t9").1.success = true ∧
      ((("b9", booking_record_of lateBookingRequest "b9" "t9") ∈
          (book_appointment [] lateBookingRequest 7 "b9" "t9").2) ∧
        (booking_record_of lateBookingRequest "b9" "t9").status = "confirmed") ∧
      lateBookingRequest.time ∉ generate_time_slots 540 1020 30 (some (720, 780))) :=
  ⟨⟨by decide, by decide, by decide⟩,
    book_accepts_slot_past_closing [] lateBookingRequest 7 "b9" "t9"
      ⟨[0, 1, 2, 3, 4], 540, 1020, 720, 780⟩
      (by decide) (by decide) (by decide) (by decide) (by decide) (by decide)⟩

/-! ## Theorems: unknown-tool dispatch (C8) -/

/-- C8: dispatching a tool name other than check_availability and
book_appointment returns the structured payload
with error "Unknown tool: name" instead of raising; _handle_tool_calls
feeds it back as a tool-role message before the follow-up completion;
and chat() ends the turn with the follow-up completion's text, not with
the backstop's apology. -/
theorem unknown_tool_structured_error (env : TurnEnv)
    (stored : Option (List Message)) (message today : String)
    (content call_id args tool_name final : String) (tcs₂ : List ToolCallReq)
    (h₁ : tool_name ≠ "check_availability") (h₂ : tool_name ≠ "book_appointment")
    (hfaq : env.faq_outcome = .ok none)
    (hc1 : env.completion1 = .reply content [⟨call_id, tool_name, args⟩])
    (hc2 : env.completion2 = .reply final tcs₂) :
    execute_tool env tool_name args = .payload (unknown_tool_payload tool_name) ∧
    (∀ msgs : List Message,
      handle_tool_calls env msgs content [⟨call_id, tool_name, args⟩] =
        (msgs ++ [assistant_tool_call_message [⟨call_id, tool_name, args⟩],
          tool_result_message ⟨call_id, tool_name, args⟩ (unknown_tool_payload tool_name)],
         .ok final)) ∧
    (chat env stored message today).1 = final := by
  have hexec : execute_tool env tool_name args = .payload (unknown_tool_payload tool_name) := by
    unfold execute_tool
    rw [if_neg h₁, if_neg h₂]
  have hhandle : ∀ msgs : List Message,
      handle_tool_calls env msgs content [⟨call_id, tool_name, args⟩] =
        (msgs ++ [assistant_tool_call_message [⟨call_id, tool_name, args⟩],
          tool_result_message ⟨call_id, tool_name, args⟩ (unknown_tool_payload tool_name)],
         .ok final) := by
    intro msgs
    unfold handle_tool_calls
    rw [if_neg (by simp)]
    unfold run_tool_loop
    dsimp only
    rw [hexec]
    dsimp only
    unfold run_tool_loop
    dsimp only
    rw [hc2]
    simp
  refine ⟨hexec, hhandle, ?_⟩
  unfold chat
  rw [hfaq]
  dsimp only
  unfold chat_completion_path
  rw [hc1]
  dsimp only
  rw [if_neg (by simp)]
  rw [hhandle]

/-- Witness for C8: a turn requesting the unknown tool get_weather. -/
theorem unknown_tool_structured_error_witness :
    (("get_weather" : String) ≠ "check_availability" ∧
      ("get_weather" : String) ≠ "book_appointment" ∧
      unknownToolTurnEnv.faq_outcome = .ok none) ∧
    execute_tool unknownToolTurnEnv "get_weather" "\x7b\x7d" =
      .payload (unknown_tool_payload "get_weather") ∧
    handle_tool_calls unknownToolTurnEnv
        [{ role := "system", content := SYSTEM_PROMPT }] ""
        [⟨"call_9", "get_weather", "\x7b\x7d"⟩] =
      ([{ role := "system", content := SYSTEM_PROMPT },
        assistant_tool_call_message [⟨"call_9", "get_weather", "\x7b\x7d"⟩],
        tool_result_message ⟨"call_9", "get_weather", "\x7b\x7d"⟩
          (unknown_tool_payload "get_weather")],
       .ok "Sorry, I cannot help with that.") ∧
    (chat unknownToolTurnEnv none "weather please" "2026-10-12").1 =
      "Sorry, I cannot help with that." := by
  have h := unknown_tool_structured_error unknownToolTurnEnv none "weather please"
    "2026-10-12" "" "call_9" "\x7b\x7d" "get_weather" "Sorry, I cannot help with that." []
    (by decide) (by decide) rfl rfl rfl
  exact ⟨⟨by decide, by decide, rfl⟩, h.1,
    by rw [h.2.1 [{ role := "system", content := SYSTEM_PROMPT }]]; rfl, h.2.2⟩

end SchedulingSpec
